import Mathlib

/-!
Verification of the email-verifier repository's core against its
natural-language specification.

The JavaScript sources are shallowly embedded as executable Lean
definitions:

* `src/core/parser.js`   → `classifyCode`, `extractEnhancedCode`,
  `parseSmtpResponse`
* `src/core/smtp-client.js` (`_readResponse`) → `_readResponse`
* `src/core/dns.js`      → `classifyError`, `isValidDomain`,
  `sortMXByPriority`, `resolveMX`, `resolveMXWithFallback`
* `src/core/verifier.js` → `verifyEmail`
* `src/utils/mapper.js` (concatenated into src/bulk.js) → `formatOutput`

JavaScript strings are modelled as Lean `String` / `List Char`;
network and socket effects are modelled by passing the outcome of each
I/O step explicitly (`Except` values / answer lists).
-/

deriving instance DecidableEq for Except

namespace EmailVerifier

/-! ## Response parser (src/core/parser.js) -/

/-- The five classification buckets of `CLASSIFICATION` in parser.js. -/
inductive Classification where
  | SUCCESS
  | INTERMEDIATE
  | TRANSIENT_FAIL
  | PERMANENT_FAIL
  | PROTOCOL_ERROR
deriving DecidableEq, Repr

/-- Function `classifyCode` from parser.js: range buckets for the 3-digit code. -/
def classifyCode (code : Nat) : Classification :=
  if 200 ≤ code ∧ code < 300 then .SUCCESS
  else if 300 ≤ code ∧ code < 400 then .INTERMEDIATE
  else if 400 ≤ code ∧ code < 500 then .TRANSIENT_FAIL
  else if 500 ≤ code ∧ code < 600 then .PERMANENT_FAIL
  else .PROTOCOL_ERROR

/-- Whitespace class used by JavaScript `trim` and the regex class
`\s`, restricted to its ASCII members (space, tab, LF, CR, VT, FF). -/
def isJsSpace (c : Char) : Bool :=
  c = ' ' || c = '\t' || c = '\n' || c = '\r' || c = '\x0b' || c = '\x0c'

/-- JavaScript `String.prototype.trim` on a character list. -/
def jsTrim (l : List Char) : List Char :=
  ((l.dropWhile isJsSpace).reverse.dropWhile isJsSpace).reverse

/-- Split on the regex `\r?\n` exactly as `rawBuffer.split(/\r?\n/)`
does: a `"\r\n"` pair or a lone `'\n'` ends a line; a `'\r'` not
followed by `'\n'` stays inside the line. -/
def splitLines : List Char → List (List Char)
  | [] => [[]]
  | '\r' :: '\n' :: rest => [] :: splitLines rest
  | '\n' :: rest => [] :: splitLines rest
  | c :: rest =>
    match splitLines rest with
    | [] => [[c]]
    | l :: ls => (c :: l) :: ls

/-- The non-empty lines of the buffer, as computed by
`rawBuffer.split(/\r?\n/).filter((line) => line.length > 0)`. -/
def nonEmptyLines (rawBuffer : String) : List (List Char) :=
  (splitLines rawBuffer.data).filter (fun l => 0 < l.length)

/-- Numeric value of the 3-digit prefix `a b c`. -/
def digitsVal (a b c : Char) : Nat :=
  (a.toNat - 48) * 100 + (b.toNat - 48) * 10 + (c.toNat - 48)

/-- The regex `^(\d{3})(?: (.*)|$)` applied to the last line: three
digits followed by a space or by the end of the line.  Returns the
parsed code (capture group 1) on a match. -/
def lastLineMatch (l : List Char) : Option Nat :=
  match l with
  | a :: b :: c :: rest =>
    if a.isDigit && b.isDigit && c.isDigit then
      match rest with
      | [] => some (digitsVal a b c)
      | ' ' :: _ => some (digitsVal a b c)
      | _ => none
    else none
  | _ => none

/-- The regex `^\d{3}-` (multi-line continuation marker). -/
def isIntermediateLine (l : List Char) : Bool :=
  match l with
  | a :: b :: c :: '-' :: _ => a.isDigit && b.isDigit && c.isDigit
  | _ => false

/-- Greedy run of digits and the remaining characters. -/
def munchDigits (l : List Char) : List Char × List Char :=
  (l.takeWhile Char.isDigit, l.dropWhile Char.isDigit)

/-- Function `extractEnhancedCode` from parser.js: the regex
`^\d{3}[ -](\d{1,3}\.\d{1,3}\.\d{1,3})\s` (since a digit run is
followed by `.` or `\s`, the greedy `{1,3}` bound is equivalent to
requiring the maximal digit run to have length 1–3). -/
def extractEnhancedCode (l : List Char) : Option (List Char) :=
  match l with
  | a :: b :: c :: sep :: rest =>
    if a.isDigit && b.isDigit && c.isDigit && (sep = ' ' || sep = '-') then
      let p1 := munchDigits rest
      if 1 ≤ p1.1.length && p1.1.length ≤ 3 then
        match p1.2 with
        | '.' :: r2 =>
          let p2 := munchDigits r2
          if 1 ≤ p2.1.length && p2.1.length ≤ 3 then
            match p2.2 with
            | '.' :: r4 =>
              let p3 := munchDigits r4
              if 1 ≤ p3.1.length && p3.1.length ≤ 3 then
                match p3.2 with
                | w :: _ =>
                  if isJsSpace w then
                    some (p1.1 ++ '.' :: p2.1 ++ '.' :: p3.1)
                  else none
                | [] => none
              else none
            | _ => none
          else none
        | _ => none
      else none
    else none
  | _ => none

/-- JavaScript `String.prototype.replace` with a string pattern:
replace the first occurrence of `pat` by the empty string. -/
def replaceFirstByEmpty (l pat : List Char) : List Char :=
  match l with
  | [] => []
  | c :: rest =>
    if pat.isPrefixOf (c :: rest) then (c :: rest).drop pat.length
    else c :: replaceFirstByEmpty rest pat

/-- Helper for `collapseWs`: `inRun` records whether the previous
character was whitespace (already emitted as a single space). -/
def collapseWsAux : Bool → List Char → List Char
  | _, [] => []
  | inRun, c :: rest =>
    if isJsSpace c then
      if inRun then collapseWsAux true rest
      else ' ' :: collapseWsAux true rest
    else c :: collapseWsAux false rest

/-- JavaScript `replace(/\s+/g, " ")`: collapse every whitespace run
to a single space. -/
def collapseWs (l : List Char) : List Char :=
  collapseWsAux false l

/-- The parsed-response record of parser.js. -/
structure SmtpResponse where
  code : Nat
  enhancedCode : Option String
  message : String
  lines : List String
  classification : Classification
deriving DecidableEq, Repr

/-- The synthesized message of a complete response:
`lines.map((l) => l.substring(4)).join(" ").trim()`. -/
def rawMessageOf (lines : List (List Char)) : List Char :=
  jsTrim (List.intercalate [' '] (lines.map (fun l => l.drop 4)))

/-- The cleaned message: remove the first literal occurrence of the
enhanced code, trim, then collapse whitespace runs. -/
def cleanMessageOf (raw : List Char) : Option (List Char) → List Char
  | none => raw
  | some ec => collapseWs (jsTrim (replaceFirstByEmpty raw ec))

/-- Function `parseSmtpResponse` from parser.js.  Returns `none` ("need more
data") while the buffer does not frame a complete response. -/
def parseSmtpResponse (rawBuffer : String) : Option SmtpResponse :=
  if rawBuffer = "" then none
  else
    match (nonEmptyLines rawBuffer).getLast? with
    | none => none
    | some lastLine =>
      match lastLineMatch lastLine with
      | none => none
      | some code =>
        if isIntermediateLine lastLine then none
        else
          some {
            code := code
            enhancedCode :=
              ((nonEmptyLines rawBuffer).findSome? extractEnhancedCode).map String.mk
            message := String.mk (cleanMessageOf (rawMessageOf (nonEmptyLines rawBuffer))
              ((nonEmptyLines rawBuffer).findSome? extractEnhancedCode))
            lines := (nonEmptyLines rawBuffer).map String.mk
            classification := classifyCode code }

/-! ## Session-layer read (src/core/smtp-client.js, `_readResponse`) -/

/-- Function `_readResponse` from smtp-client.js.  The promise resolves on the
FIRST `data` event: the single chunk is parsed, a complete parse
resolves, and an incomplete parse (`null`) rejects with
`"Empty or invalid SMTP response"`.  No bytes are accumulated across
chunks, so the function is modelled on the first chunk alone. -/
def «_readResponse» (firstChunk : String) : Except String SmtpResponse :=
  match parseSmtpResponse firstChunk with
  | some parsed => .ok parsed
  | none => .error "Empty or invalid SMTP response"

/-! ## Claim-side predicates for the parser -/

/-- The spec's framing condition on the last non-empty line: three
digits followed by end-of-line or a space. -/
def completeFinalLine (l : List Char) : Bool :=
  match l with
  | a :: b :: c :: rest =>
    a.isDigit && b.isDigit && c.isDigit &&
      (match rest with
       | [] => true
       | ' ' :: _ => true
       | _ => false)
  | _ => false

theorem lastLineMatch_complete (l : List Char) :
    ((lastLineMatch l).isSome = true ∧ isIntermediateLine l = false) ↔
      completeFinalLine l = true := by
  match l with
  | [] => simp [lastLineMatch, isIntermediateLine, completeFinalLine]
  | [a] => simp [lastLineMatch, isIntermediateLine, completeFinalLine]
  | [a, b] => simp [lastLineMatch, isIntermediateLine, completeFinalLine]
  | a :: b :: c :: rest =>
    by_cases hd : (a.isDigit && b.isDigit && c.isDigit) = true
    · match rest with
      | [] => simp [lastLineMatch, isIntermediateLine, completeFinalLine, hd]
      | d :: tl =>
        by_cases hsp : d = ' '
        · subst hsp
          simp [lastLineMatch, isIntermediateLine, completeFinalLine, hd]
        · by_cases hhy : d = '-'
          · subst hhy
            simp [lastLineMatch, isIntermediateLine, completeFinalLine, hd]
          · simp [lastLineMatch, isIntermediateLine, completeFinalLine, hd,
              hsp, hhy]
    · simp [lastLineMatch, isIntermediateLine, completeFinalLine, hd]

theorem nonEmptyLines_empty : nonEmptyLines "" = [] := rfl

/-- Claim C2: `parseSmtpResponse` returns a parsed response exactly
when the last non-empty line of the buffer is three digits followed by
end-of-line or a space; in particular a last line using the `-`
continuation separator, and the empty buffer, yield `none`. -/
theorem parseSmtpResponse_some_iff_completeFinalLine (buf : String) :
    (parseSmtpResponse buf).isSome = true ↔
      (∃ l, (nonEmptyLines buf).getLast? = some l ∧ completeFinalLine l = true) := by
  unfold parseSmtpResponse
  split
  · rename_i hb
    subst hb
    simp [nonEmptyLines_empty]
  · split
    · rename_i hl
      simp [hl]
    · rename_i l hl
      split
      · rename_i hm
        simp only [Option.isSome_none, Bool.false_eq_true, false_iff]
        rintro ⟨l2, hl2, hc⟩
        rw [hl] at hl2
        have hll := Option.some.inj hl2
        subst hll
        have hcm := (lastLineMatch_complete l).2 hc
        rw [hm] at hcm
        simp at hcm
      · rename_i code hm
        split
        · rename_i hi
          simp only [Option.isSome_none, Bool.false_eq_true, false_iff]
          rintro ⟨l2, hl2, hc⟩
          rw [hl] at hl2
          have hll := Option.some.inj hl2
          subst hll
          have hcm := ((lastLineMatch_complete l).2 hc).2
          rw [hi] at hcm
          simp at hcm
        · rename_i hi
          simp only [Option.isSome_some, true_iff]
          exact ⟨l, hl,
            (lastLineMatch_complete l).1 ⟨by simp [hm], by simpa using hi⟩⟩

/-- Inversion for `lastLineMatch`. -/
theorem lastLineMatch_eq_some (l : List Char) (n : Nat)
    (h : lastLineMatch l = some n) :
    ∃ a b c rest, l = a :: b :: c :: rest ∧
      a.isDigit = true ∧ b.isDigit = true ∧ c.isDigit = true ∧
      n = digitsVal a b c := by
  match l with
  | [] => simp [lastLineMatch] at h
  | [a] => simp [lastLineMatch] at h
  | [a, b] => simp [lastLineMatch] at h
  | a :: b :: c :: rest =>
    by_cases hd : (a.isDigit && b.isDigit && c.isDigit) = true
    · refine ⟨a, b, c, rest, rfl, ?_, ?_, ?_, ?_⟩ <;>
        simp only [Bool.and_eq_true] at hd
      · exact hd.1.1
      · exact hd.1.2
      · exact hd.2
      · match rest with
        | [] => simp [lastLineMatch, hd.1.1, hd.1.2, hd.2] at h; omega
        | ' ' :: tl => simp [lastLineMatch, hd.1.1, hd.1.2, hd.2] at h; omega
        | d :: tl =>
          by_cases hsp : d = ' '
          · subst hsp; simp [lastLineMatch, hd.1.1, hd.1.2, hd.2] at h; omega
          · simp [lastLineMatch, hd.1.1, hd.1.2, hd.2, hsp] at h
    · simp only [lastLineMatch] at h
      rw [if_neg hd] at h
      exact absurd h (by simp)

/-- Claim C9: `parseSmtpResponse` is a total function (it is a plain
structurally recursive Lean definition), and whenever it returns a
response, the response's `code` is exactly the numeric value of the
three-digit prefix of the last non-empty line of the buffer. -/
theorem parseSmtpResponse_total_code (buf : String) (r : SmtpResponse)
    (h : parseSmtpResponse buf = some r) :
    ∃ a b c rest, (nonEmptyLines buf).getLast? = some (a :: b :: c :: rest) ∧
      a.isDigit = true ∧ b.isDigit = true ∧ c.isDigit = true ∧
      r.code = digitsVal a b c := by
  unfold parseSmtpResponse at h
  split at h
  · exact absurd h (by simp)
  · split at h
    · exact absurd h (by simp)
    · rename_i l hl
      split at h
      · exact absurd h (by simp)
      · rename_i code hm
        split at h
        · exact absurd h (by simp)
        · obtain ⟨a, b, c, rest, hshape, ha, hbd, hc, hcode⟩ :=
            lastLineMatch_eq_some l code hm
          refine ⟨a, b, c, rest, by rw [← hshape]; exact hl, ha, hbd, hc, ?_⟩
          have hr := Option.some.inj h
          rw [← hr]
          simpa using hcode

/-- Witness for C9 at the concrete buffer `"250 OK\r\n"`. -/
theorem parseSmtpResponse_total_code_witness :
    ∃ a b c rest,
      (nonEmptyLines "250 OK\r\n").getLast? = some (a :: b :: c :: rest) ∧
      a.isDigit = true ∧ b.isDigit = true ∧ c.isDigit = true ∧
      (SmtpResponse.mk 250 none "OK" ["250 OK"] .SUCCESS).code = digitsVal a b c :=
  parseSmtpResponse_total_code "250 OK\r\n"
    (SmtpResponse.mk 250 none "OK" ["250 OK"] .SUCCESS) (by decide)

/-- Claim C1: `_readResponse` fails whenever the first socket chunk
holds an incomplete response: the incomplete first chunk of a
multi-line reply is rejected with `"Empty or invalid SMTP response"`,
even though accumulating the next chunk would frame a complete
response.  This exhibits the reactive-read bug. -/
theorem readResponse_fails_on_incomplete_first_chunk :
    «_readResponse» "250-mx.google.com at your service\r\n" =
      .error "Empty or invalid SMTP response" ∧
    (parseSmtpResponse
      "250-mx.google.com at your service\r\n250 CHUNKING\r\n").isSome = true := by
  constructor
  · decide
  · decide

/-! ## DNS resolver (src/core/dns.js) -/

/-- The `ERROR_TYPES` taxonomy of dns.js. -/
inductive ErrorType where
  | HARD_FAIL
  | SOFT_FAIL
  | TIMEOUT
  | NO_MX_RECORDS
  | INVALID_DOMAIN
deriving DecidableEq, Repr

/-- A JavaScript `Error` object as used by dns.js: `message`, `code`,
the ad-hoc `type` field (absent on fresh errors), and the ad-hoc
`attempts` field set on retry exhaustion. -/
structure JsError where
  message : String
  code : String
  type : Option ErrorType
  attempts : Option Nat
deriving DecidableEq, Repr

/-- Contiguous-substring test on character lists. -/
def isSubListOf (needle : List Char) : List Char → Bool
  | [] => needle.isEmpty
  | c :: rest => needle.isPrefixOf (c :: rest) || isSubListOf needle rest

/-- JavaScript `String.prototype.includes`. -/
def jsIncludes (s sub : String) : Bool :=
  isSubListOf sub.data s.data

/-- Function `classifyError` from dns.js.  It inspects only `err.code` and
`err.message` — never the `type` field a thrower may have attached. -/
def classifyError (err : JsError) : ErrorType :=
  if err.code = "ETIMEDOUT" || jsIncludes err.message "timeout" ||
      jsIncludes err.message "timed out" then .TIMEOUT
  else if err.code = "ENOTFOUND" || jsIncludes err.message "NXDOMAIN" ||
      jsIncludes err.message "non-existent" then .HARD_FAIL
  else if err.code = "ECONNREFUSED" || jsIncludes err.message "refused" then .SOFT_FAIL
  else if err.code = "SERVFAIL" || jsIncludes err.message "server failure" ||
      jsIncludes err.message "500" then .SOFT_FAIL
  else if err.code = "EINVAL" || jsIncludes err.message "invalid" then .INVALID_DOMAIN
  else .SOFT_FAIL

/-- An MX record as handled by dns.js: `{ exchange, priority }`, the
priority possibly absent. -/
structure MXRecord where
  exchange : String
  priority : Option Nat
deriving DecidableEq, Repr

/-- The effective sort key of `sortMXByPriority`:
`parseInt(r.priority, 10) || 65535`.  `parseInt` of an absent priority
is `NaN` (falsy) and `parseInt` of `0` is `0` (also falsy), so both
fall back to `65535`. -/
def mxSortKey (r : MXRecord) : Nat :=
  match r.priority with
  | none => 65535
  | some p => if p = 0 then 65535 else p

/-- Stable insertion of a record coming BEFORE the elements of the
already-sorted tail that share its key (source order preserved). -/
def insertMX (x : MXRecord) : List MXRecord → List MXRecord
  | [] => [x]
  | y :: ys => if mxSortKey y < mxSortKey x then y :: insertMX x ys else x :: y :: ys

/-- Stable insertion sort on `mxSortKey`. -/
def insertionSortMX : List MXRecord → List MXRecord
  | [] => []
  | x :: xs => insertMX x (insertionSortMX xs)

/-- Function `sortMXByPriority` from dns.js: `Array.prototype.sort` with the
comparator `(parseInt(a.priority)||65535) - (parseInt(b.priority)||65535)`.
ECMAScript sort is stable and consistent comparators sort by the key,
so it is embedded as a stable sort on `mxSortKey`. -/
def sortMXByPriority (mxRecords : List MXRecord) : List MXRecord :=
  if mxRecords.isEmpty then []
  else insertionSortMX mxRecords

/-- Character class `[a-z0-9]` under the regex's `i` flag. -/
def isAlnumLdh (c : Char) : Bool :=
  c.isDigit || ('a' ≤ c && c ≤ 'z') || ('A' ≤ c && c ≤ 'Z')

/-- Character class `[a-z0-9-]` under the `i` flag. -/
def isLdh (c : Char) : Bool :=
  isAlnumLdh c || c = '-'

/-- Generic single-character splitter (JavaScript `split` with a
one-character separator, and the `.`-separated view of the domain
regex). -/
def splitOnChar (sep : Char) : List Char → List (List Char)
  | [] => [[]]
  | c :: rest =>
    if c = sep then [] :: splitOnChar sep rest
    else
      match splitOnChar sep rest with
      | [] => [[c]]
      | l :: ls => (c :: l) :: ls

/-- One label of the domain regex:
`[a-z0-9](?:[a-z0-9-]{0,61}[a-z0-9])?` — length 1–63, LDH characters,
first and last alphanumeric. -/
def isValidLabel (l : List Char) : Bool :=
  1 ≤ l.length && l.length ≤ 63 && l.all isLdh &&
    (match l.head?, l.getLast? with
     | some a, some b => isAlnumLdh a && isAlnumLdh b
     | _, _ => false)

/-- Function `isValidDomain` from dns.js: non-empty, at most 253 characters,
and matching `/^(?:[a-z0-9](?:[a-z0-9-]{0,61}[a-z0-9])?\.)+[a-z0-9]{2,}$/i`
(at least one dot-separated label before an all-alphanumeric TLD of
length ≥ 2). -/
def isValidDomain (domain : String) : Bool :=
  0 < domain.data.length && domain.data.length ≤ 253 &&
    (match (splitOnChar '.' domain.data).reverse with
     | tld :: labels =>
       labels.length ≥ 1 && 2 ≤ tld.length && tld.all isAlnumLdh &&
         labels.all isValidLabel
     | [] => false)

/-- One raw answer of a DNS query result, as consumed by the mapping
step of `resolveMX`: whether its `type` is MX, the `exchange` string
finally obtained from the `||` chain (`""` when absent), and the
priority obtained from the `??` chain (before the `?? 65535`
default). -/
structure DnsAnswer where
  isMx : Bool
  exchange : String
  priority : Option Nat
deriving DecidableEq, Repr

/-- The error thrown by `resolveMX` when the query result carries no
answers. -/
def noMxError (domain : String) : JsError :=
  { message := "No MX records found for domain: \"" ++ domain ++ "\""
    code := "ENODATA"
    type := some .NO_MX_RECORDS
    attempts := none }

/-- The error thrown when answers exist but none maps to a usable MX
record. -/
def noValidMxError (domain : String) : JsError :=
  { message := "No valid MX records found for domain: \"" ++ domain ++ "\""
    code := "ENODATA"
    type := some .NO_MX_RECORDS
    attempts := none }

/-- The body of `resolveMX`'s `try` block, after the raced query has
produced `answers`: the empty-answer check, the MX filter/map, and the
final sort.  An error result models a `throw` into the `catch`. -/
def processAnswers (domain : String) (answers : List DnsAnswer) :
    Except JsError (List MXRecord) :=
  if answers.isEmpty then .error (noMxError domain)
  else
    match (answers.filter (fun a => a.isMx)).map
        (fun a => MXRecord.mk a.exchange (some (a.priority.getD 65535)))
        |>.filter (fun mx => mx.exchange ≠ "") with
    | [] => .error (noValidMxError domain)
    | mx :: rest => .ok (sortMXByPriority (mx :: rest))

/-- One attempt of the retry loop: either the raced query itself threw
(timeout, resolver error), or it returned answers that are then
processed. -/
def attemptResolve (domain : String) (q : Except JsError (List DnsAnswer)) :
    Except JsError (List MXRecord) :=
  match q with
  | .error e => .error e
  | .ok answers => processAnswers domain answers

/-- The `while (attempt < maxAttempts)` retry loop of `resolveMX`.
`queryOutcomes` lists, in order, what each attempted query would
yield; its length is `maxAttempts = retries + 1`.  A hard-failing
classification rethrows at once (stamping `err.type`); otherwise the
loop retries, and on exhaustion the last error is rethrown restamped
as `SOFT_FAIL` with the attempt count. -/
def resolveMXGo (maxAttempts : Nat) (lastError : Option JsError) (domain : String) :
    List (Except JsError (List DnsAnswer)) → Except JsError (List MXRecord)
  | [] =>
    match lastError with
    | some e =>
      .error { e with
        type := some .SOFT_FAIL
        code := if e.code = "" then "EDNS_RETRIES_EXHAUSTED" else e.code
        attempts := some maxAttempts }
    | none =>
      .error { message := "resolveMX called with zero attempts"
               code := "EUNREACHABLE", type := none, attempts := none }
  | q :: rest =>
    match attemptResolve domain q with
    | .ok records => .ok records
    | .error err =>
      let errorType := classifyError err
      if errorType = .HARD_FAIL || errorType = .INVALID_DOMAIN ||
          errorType = .NO_MX_RECORDS then
        .error { err with
          type := some errorType
          code := if err.code = "" then "EDNS_HARD_FAIL" else err.code }
      else resolveMXGo maxAttempts (some err) domain rest

/-- Function `resolveMX` from dns.js: the domain-validity gate followed by the
retry loop over the attempts' query outcomes. -/
def resolveMX (domain : String)
    (queryOutcomes : List (Except JsError (List DnsAnswer))) :
    Except JsError (List MXRecord) :=
  if ¬ isValidDomain domain then
    .error { message := "Invalid domain format: \"" ++ domain ++ "\""
             code := "EINVAL", type := some .INVALID_DOMAIN, attempts := none }
  else resolveMXGo queryOutcomes.length none domain queryOutcomes

/-- The tier loop of `resolveMXWithFallback`: each element of `tiers`
is the query-outcome list `resolveMX` would see against that tier's
name servers.  Only `HARD_FAIL` and `INVALID_DOMAIN` error types stop
the chain; any other failure moves to the next tier. -/
def resolveMXWithFallbackGo (domain : String) :
    List (List (Except JsError (List DnsAnswer))) → Except JsError (List MXRecord)
  | [] =>
    .error { message := "MX resolution failed across all DNS servers for \"" ++
               domain ++ "\""
             code := "EDNS_ALL_RESOLVERS_FAILED"
             type := some .SOFT_FAIL, attempts := none }
  | tier :: rest =>
    match resolveMX domain tier with
    | .ok records => .ok records
    | .error err =>
      if err.type = some .HARD_FAIL || err.type = some .INVALID_DOMAIN then
        .error err
      else resolveMXWithFallbackGo domain rest

/-- Function `resolveMXWithFallback` from dns.js (primary, fallback and
secondary resolver tiers are the three entries of `tiers`). -/
def resolveMXWithFallback (domain : String)
    (tiers : List (List (Except JsError (List DnsAnswer)))) :
    Except JsError (List MXRecord) :=
  resolveMXWithFallbackGo domain tiers

/-! ## Concrete DNS scenarios -/

/-- A query that returns an empty answer section. -/
def emptyAnswerQuery : Except JsError (List DnsAnswer) := .ok []

/-- A query that returns one usable MX answer. -/
def goodAnswerQuery : Except JsError (List DnsAnswer) :=
  .ok [DnsAnswer.mk true "mx.example.com" (some 10)]

/-- An NXDOMAIN-style resolver error (code `ENOTFOUND`). -/
def nxdomainError : JsError :=
  { message := "queryMx ENOTFOUND", code := "ENOTFOUND", type := none,
    attempts := none }

/-- Claim C3: how the hard-fail kinds really behave.

A `HARD_FAIL` (NXDOMAIN) indeed terminates the tier on the first
attempt — the remaining successful outcomes are never consulted — and
short-circuits the tier chain (conjuncts 3 and 4).

But a `NO_MX_RECORDS` failure does not: `classifyError` inspects only
`code`/`message` and never returns `NO_MX_RECORDS`, so the error the
code itself throws with `type = NO_MX_RECORDS` is reclassified
`SOFT_FAIL` (conjunct 1), retried through all three attempts of the
tier (`attempts = 3`, `type` restamped `SOFT_FAIL`, conjunct 2), and
then handed to the next tiers until the chain is exhausted (conjunct
5) — even reaching a later tier's records (conjunct 6).  This
contradicts the claim that `NO_MX_RECORDS` terminates immediately and
short-circuits all tiers. -/
theorem resolveMX_noMxRecords_is_retried :
    classifyError (noMxError "example.com") = .SOFT_FAIL ∧
    resolveMX "example.com" [emptyAnswerQuery, emptyAnswerQuery, emptyAnswerQuery] =
      .error { noMxError "example.com" with
        type := some .SOFT_FAIL, attempts := some 3 } ∧
    resolveMX "example.com" [.error nxdomainError, goodAnswerQuery, goodAnswerQuery] =
      .error { nxdomainError with type := some .HARD_FAIL } ∧
    resolveMXWithFallback "example.com"
        [[.error nxdomainError], [goodAnswerQuery]] =
      .error { nxdomainError with type := some .HARD_FAIL } ∧
    resolveMXWithFallback "example.com"
        [[emptyAnswerQuery, emptyAnswerQuery, emptyAnswerQuery],
         [emptyAnswerQuery, emptyAnswerQuery, emptyAnswerQuery],
         [emptyAnswerQuery, emptyAnswerQuery, emptyAnswerQuery]] =
      .error { message := "MX resolution failed across all DNS servers for \"example.com\""
               code := "EDNS_ALL_RESOLVERS_FAILED"
               type := some .SOFT_FAIL, attempts := none } ∧
    resolveMXWithFallback "example.com"
        [[emptyAnswerQuery, emptyAnswerQuery, emptyAnswerQuery], [goodAnswerQuery]] =
      .ok [MXRecord.mk "mx.example.com" (some 10)] := by
  refine ⟨by decide, by decide, by decide, by decide, by decide, by decide⟩

/-- Claim C4: sorting at the failing input.  The record with priority
`0` is treated as priority `65535` by the `|| 65535` fallback and is
sorted AFTER the record with priority `10`, contradicting ascending
order (first conjunct).  For non-zero and missing priorities the sort
is ascending and stable with missing treated as `65535` (second
conjunct). -/
theorem sortMXByPriority_zero_priority_sorts_last :
    sortMXByPriority [MXRecord.mk "mx0" (some 0), MXRecord.mk "mx10" (some 10)] =
      [MXRecord.mk "mx10" (some 10), MXRecord.mk "mx0" (some 0)] ∧
    sortMXByPriority [MXRecord.mk "a" (some 5), MXRecord.mk "b" none,
        MXRecord.mk "c" (some 1), MXRecord.mk "d" (some 5)] =
      [MXRecord.mk "c" (some 1), MXRecord.mk "a" (some 5),
       MXRecord.mk "d" (some 5), MXRecord.mk "b" none] := by
  refine ⟨by decide, by decide⟩

/-! ## Verifier (src/core/verifier.js) -/

/-- The `STATUS` constants of status.js. -/
inductive Status where
  | VALID
  | INVALID
  | CATCH_ALL
  | UNKNOWN
  | RISKY
deriving DecidableEq, Repr

/-- The `details` sub-object of a verification result. -/
structure VerifyDetails where
  smtpCode : Option Nat
  smtpMessage : Option String
  catchAllActive : Bool
  greylisted : Bool
deriving DecidableEq, Repr

/-- The `results` object built by `verifyEmail`. -/
structure VerifyResult where
  email : String
  domain : Option String
  mx : Option String
  status : Status
  reason : Option String
  details : VerifyDetails
deriving DecidableEq, Repr

/-- The result of `getMXRecords` (which never throws: it reports
`success` plus a possibly-empty record list). -/
structure MXLookup where
  success : Bool
  records : List MXRecord
deriving DecidableEq, Repr

/-- The outcomes of the network steps a single verification performs,
passed explicitly: the MX lookup result and, for each SMTP client
call, either its returned response or the message of the error it
throws.  (`connect` yields no response; in the real client an `ok`
`hello`/`mailFrom` always carries a `SUCCESS` classification because
the client throws otherwise, but `verifyEmail` does not rely on
that.) -/
structure SmtpWorld where
  mx : MXLookup
  connect : Except String Unit
  hello : Except String SmtpResponse
  mailFrom : Except String SmtpResponse
  rcptNonce : Except String SmtpResponse
  rcptTarget : Except String SmtpResponse

/-- The initial `results` object of `verifyEmail`. -/
def initResult (email : String) : VerifyResult :=
  { email := email, domain := none, mx := none, status := .UNKNOWN,
    reason := none,
    details := { smtpCode := none, smtpMessage := none,
                 catchAllActive := false, greylisted := false } }

/-- Step 4 of `verifyEmail`: record the catch-all probe's verdict in
the details. -/
def applyNonceDetails (d : VerifyDetails) (nonceRes : SmtpResponse) : VerifyDetails :=
  if nonceRes.classification = .SUCCESS then { d with catchAllActive := true }
  else if nonceRes.classification = .TRANSIENT_FAIL then { d with greylisted := true }
  else d

/-- Step 5 of `verifyEmail`: record the target response's code and
message in the details (done before the classification chain). -/
def recordTarget (d : VerifyDetails) (targetRes : SmtpResponse) : VerifyDetails :=
  { d with
    smtpCode := some targetRes.code
    smtpMessage := some targetRes.message }

/-- Step 6 of `verifyEmail`: the final classification chain, after the
target response has been recorded in the details.  Note the chain has
no `else` arm: an `INTERMEDIATE` or `PROTOCOL_ERROR` target leaves
`status`/`reason` untouched. -/
def finalClassification (r : VerifyResult) (targetRes : SmtpResponse) : VerifyResult :=
  if r.details.greylisted || targetRes.classification = .TRANSIENT_FAIL then
    { r with
      details := recordTarget r.details targetRes
      status := .UNKNOWN
      reason := some "Greylisted (Try again later)" }
  else if targetRes.classification = .PERMANENT_FAIL then
    { r with
      details := recordTarget r.details targetRes
      status := .INVALID
      reason := some "Recipient rejected" }
  else if targetRes.classification = .SUCCESS then
    if r.details.catchAllActive then
      { r with
        details := recordTarget r.details targetRes
        status := .CATCH_ALL
        reason := some "Domain is Catch-All" }
    else
      { r with
        details := recordTarget r.details targetRes
        status := .VALID
        reason := some "Recipient accepted (and domain not Catch-All)" }
  else
    { r with details := recordTarget r.details targetRes }

/-- The inner `try { connect … rcptTo } catch (smtpErr) { … }` of
`verifyEmail`: any step's throw is caught and turned into the reason
`"SMTP Error: " ++ message`, with `status` left at its current value
(`UNKNOWN`) and the details as mutated so far. -/
def runConversation (r : VerifyResult) (connect : Except String Unit)
    (hello mailFrom rcptNonce rcptTarget : Except String SmtpResponse) :
    VerifyResult :=
  match connect with
  | .error m => { r with reason := some ("SMTP Error: " ++ m) }
  | .ok _ =>
    match hello with
    | .error m => { r with reason := some ("SMTP Error: " ++ m) }
    | .ok _ =>
      match mailFrom with
      | .error m => { r with reason := some ("SMTP Error: " ++ m) }
      | .ok _ =>
        match rcptNonce with
        | .error m => { r with reason := some ("SMTP Error: " ++ m) }
        | .ok nonceRes =>
          match rcptTarget with
          | .error m =>
            { r with details := applyNonceDetails r.details nonceRes,
                     reason := some ("SMTP Error: " ++ m) }
          | .ok targetRes =>
            finalClassification
              { r with details := applyNonceDetails r.details nonceRes }
              targetRes

/-- Function `verifyEmail` from verifier.js: syntax gate, MX lookup, SMTP
conversation, verdict synthesis.  The `quit()` in the `finally` block
swallows its own errors and only releases the socket, so it is not
modelled. -/
def verifyEmail (email : String) (w : SmtpWorld) : VerifyResult :=
  if email = "" || !(email.data.contains '@') then
    { initResult email with
      status := .INVALID
      reason := some "Invalid email syntax" }
  else if ((splitOnChar '@' email.data).getD 0 []).isEmpty ||
      ((splitOnChar '@' email.data).getD 1 []).isEmpty then
    { initResult email with
      status := .INVALID
      reason := some "Invalid email syntax" }
  else if !w.mx.success || w.mx.records.isEmpty then
    { initResult email with
      domain := some (String.mk ((splitOnChar '@' email.data).getD 1 []))
      status := .INVALID
      reason := some "No MX records found" }
  else
    runConversation
      { initResult email with
        domain := some (String.mk ((splitOnChar '@' email.data).getD 1 []))
        mx := some ((w.mx.records.getD 0 (MXRecord.mk "" none)).exchange) }
      w.connect w.hello w.mailFrom w.rcptNonce w.rcptTarget

/-- The condition under which `verifyEmail` proceeds past its syntax
gate: a non-empty string containing `'@'` whose first two
`'@'`-separated segments are both non-empty.  (JavaScript
`const [user, domain] = email.split("@")` takes the first two
segments; extra segments after a second `'@'` are silently dropped.) -/
def GatePass (email : String) : Prop :=
  ¬(email = "" ∨ '@' ∉ email.data) ∧
  ¬((splitOnChar '@' email.data)[0]?.getD [] = [] ∨
    (splitOnChar '@' email.data)[1]?.getD [] = [])

instance (email : String) : Decidable (GatePass email) := by
  unfold GatePass
  infer_instance

/-! ## Output mapper (src/utils/mapper.js, concatenated into src/bulk.js) -/

/-- ASCII lower-casing, the fragment of case-insensitive regex
matching the patterns below exercise. -/
def asciiLower (c : Char) : Char :=
  if 'A' ≤ c && c ≤ 'Z' then Char.ofNat (c.toNat + 32) else c

/-- One alternative of a `/.../i` pattern matching somewhere in the
message: case-insensitive substring search (the needles are given in
lower case). -/
def testPattern (needles : List String) (msg : String) : Bool :=
  needles.any (fun needle => isSubListOf needle.data (msg.data.map asciiLower))

/-- Alternatives of `PATTERNS.FULL_INBOX` in mapper.js:
`/quota|full|insufficient storage|storage exceeded|limit exceeded/i`. -/
def FULL_INBOX : List String :=
  ["quota", "full", "insufficient storage", "storage exceeded",
   "limit exceeded"]

/-- Alternatives of `PATTERNS.DISABLED` in mapper.js:
`/disabled|suspended|inactive|deactivated|account closed|not active/i`. -/
def DISABLED : List String :=
  ["disabled", "suspended", "inactive", "deactivated", "account closed",
   "not active"]

/-- JavaScript truthiness of the `smtpCode` field: `null` (absent) and
the number `0` are falsy, every other code is truthy. -/
def jsTruthyNum (code : Option Nat) : Bool :=
  match code with
  | none => false
  | some c => c != 0

/-- The public result schema. -/
structure PublicResult where
  can_connect_smtp : Bool
  is_deliverable : Bool
  is_catch_all : Bool
  has_full_inbox : Bool
  is_disabled : Bool
deriving DecidableEq, Repr

/-- Function `formatOutput` from src/utils/mapper.js (the mapper
module is one of the documents concatenated into src/bulk.js).  The
source starts from an all-false output object and mutates it in
order: step 1 sets `can_connect_smtp` on the TRUTHINESS of
`details.smtpCode` (absent and code 0 are both falsy); step 2 sets
`is_deliverable` for VALID, and `is_deliverable` plus `is_catch_all`
for CATCH_ALL; step 3 sets `is_catch_all` when `catchAllActive`;
step 4 tests `msg = details.smtpMessage || ""` against the full-inbox
pattern for codes 452/552/554, forcing `is_deliverable = false`;
step 5 does the same for code 550 and the disabled pattern. -/
def formatOutput (internalResult : VerifyResult) : PublicResult :=
  let o1 : PublicResult :=
    PublicResult.mk false false false false false
  let o2 :=
    if jsTruthyNum internalResult.details.smtpCode then
      { o1 with can_connect_smtp := true }
    else o1
  let o3 :=
    if internalResult.status = .VALID then
      { o2 with is_deliverable := true }
    else if internalResult.status = .CATCH_ALL then
      { o2 with is_deliverable := true, is_catch_all := true }
    else o2
  let o4 :=
    if internalResult.details.catchAllActive then
      { o3 with is_catch_all := true }
    else o3
  let o5 :=
    if (internalResult.details.smtpCode = some 452 ∨
        internalResult.details.smtpCode = some 552 ∨
        internalResult.details.smtpCode = some 554) ∧
        testPattern FULL_INBOX (internalResult.details.smtpMessage.getD "") then
      { o4 with has_full_inbox := true, is_deliverable := false }
    else o4
  if internalResult.details.smtpCode = some 550 ∧
      testPattern DISABLED (internalResult.details.smtpMessage.getD "") then
    { o5 with is_disabled := true, is_deliverable := false }
  else o5

/-- The first SMTP step that throws, with its message (`none` when the
whole conversation succeeds).  Mirrors the order in which `verifyEmail`
performs the steps inside its inner `try`. -/
def stepErrorOf (conn : Except String Unit)
    (hel mf rn rt : Except String SmtpResponse) : Option String :=
  match conn with
  | .error m => some m
  | .ok _ =>
    match hel with
    | .error m => some m
    | .ok _ =>
      match mf with
      | .error m => some m
      | .ok _ =>
        match rn with
        | .error m => some m
        | .ok _ =>
          match rt with
          | .error m => some m
          | .ok _ => none

/-- The first SMTP step of a world that throws, with its message. -/
def smtpStepError (w : SmtpWorld) : Option String :=
  stepErrorOf w.connect w.hello w.mailFrom w.rcptNonce w.rcptTarget

/-! ## Concrete SMTP scenarios -/

/-- A plain `250 OK` response. -/
def r250 : SmtpResponse := SmtpResponse.mk 250 none "OK" ["250 OK"] .SUCCESS

/-- A permanent rejection. -/
def r550 : SmtpResponse := SmtpResponse.mk 550 none "No" ["550 No"] .PERMANENT_FAIL

/-- An intermediate (3xx) reply. -/
def r354 : SmtpResponse := SmtpResponse.mk 354 none "Go" ["354 Go"] .INTERMEDIATE

/-- A transient (greylisting) reply. -/
def r450 : SmtpResponse := SmtpResponse.mk 450 none "Grey" ["450 Grey"] .TRANSIENT_FAIL

/-- A successful MX lookup with one record. -/
def mxOkLookup : MXLookup := MXLookup.mk true [MXRecord.mk "mx.b" (some 10)]

/-- Probe rejected, target accepted: the VALID scenario. -/
def wValidWorld : SmtpWorld :=
  SmtpWorld.mk mxOkLookup (.ok ()) (.ok r250) (.ok r250) (.ok r550) (.ok r250)

/-- Probe and target both accepted: the catch-all scenario. -/
def wCatchAllWorld : SmtpWorld :=
  SmtpWorld.mk mxOkLookup (.ok ()) (.ok r250) (.ok r250) (.ok r250) (.ok r250)

/-- Probe rejected, target answered `354` (INTERMEDIATE). -/
def wIntermediateWorld : SmtpWorld :=
  SmtpWorld.mk mxOkLookup (.ok ()) (.ok r250) (.ok r250) (.ok r550) (.ok r354)

/-- The connection step throws with message `"boom"`. -/
def wConnFailWorld : SmtpWorld :=
  SmtpWorld.mk mxOkLookup (.error "boom") (.ok r250) (.ok r250) (.ok r550) (.ok r250)

/-- Target response of the full-mailbox scenario, as really parsed
from the wire reply `"552 5.2.2 Mailbox full\r\n"`. -/
def rFullInbox : SmtpResponse :=
  (parseSmtpResponse "552 5.2.2 Mailbox full\r\n").getD r250

/-- Probe rejected, target replying `552 5.2.2 Mailbox full`. -/
def wFullInboxWorld : SmtpWorld :=
  SmtpWorld.mk mxOkLookup (.ok ()) (.ok r250) (.ok r250) (.ok r550) (.ok rFullInbox)


/-! ## Claims about the verifier -/

theorem smtp_error_reason_ne_syntax (m : String) :
    some ("SMTP Error: " ++ m) ≠ some "Invalid email syntax" := by
  intro hEq
  have h1 : ("SMTP Error: " ++ m) = "Invalid email syntax" := Option.some.inj hEq
  have h2 : ("SMTP Error: " ++ m).data = ("Invalid email syntax" : String).data := by
    rw [h1]
  have h3 : "SMTP Error: ".data ++ m.data = ("Invalid email syntax" : String).data := h2
  simp [String.data] at h3

theorem runConversation_reason_ne_syntax (r : VerifyResult) (hr : r.reason = none)
    (conn : Except String Unit) (hel mf rn rt : Except String SmtpResponse) :
    (runConversation r conn hel mf rn rt).reason ≠ some "Invalid email syntax" := by
  cases conn with
  | error m => simpa [runConversation] using smtp_error_reason_ne_syntax m
  | ok u =>
    cases hel with
    | error m => simpa [runConversation] using smtp_error_reason_ne_syntax m
    | ok hres =>
      cases mf with
      | error m => simpa [runConversation] using smtp_error_reason_ne_syntax m
      | ok mfres =>
        cases rn with
        | error m => simpa [runConversation] using smtp_error_reason_ne_syntax m
        | ok nr =>
          cases rt with
          | error m => simpa [runConversation] using smtp_error_reason_ne_syntax m
          | ok tr =>
            simp only [runConversation, finalClassification]
            split_ifs <;> simp_all

theorem runConversation_catchAll (r : VerifyResult)
    (hca : r.details.catchAllActive = false)
    (hgr : r.details.greylisted = false)
    (hst : r.status = .UNKNOWN)
    (conn : Except String Unit) (hel mf rn rt : Except String SmtpResponse) :
    ((runConversation r conn hel mf rn rt).status = .CATCH_ALL →
      (runConversation r conn hel mf rn rt).details.catchAllActive = true) ∧
    ((runConversation r conn hel mf rn rt).status = .VALID →
      (runConversation r conn hel mf rn rt).details.catchAllActive = false) ∧
    ((runConversation r conn hel mf rn rt).status = .CATCH_ALL ↔
      ((∃ u, conn = .ok u) ∧ (∃ hres, hel = .ok hres) ∧
       (∃ mfres, mf = .ok mfres) ∧
       (∃ nr, rn = .ok nr ∧ nr.classification = .SUCCESS) ∧
       (∃ tr, rt = .ok tr ∧ tr.classification = .SUCCESS))) := by
  cases conn with
  | error m => simp [runConversation, hst, hca]
  | ok u =>
    cases hel with
    | error m => simp [runConversation, hst, hca]
    | ok hres =>
      cases mf with
      | error m => simp [runConversation, hst, hca]
      | ok mfres =>
        cases rn with
        | error m => simp [runConversation, hst, hca]
        | ok nr =>
          cases rt with
          | error m =>
            simp [runConversation, hst, applyNonceDetails]
          | ok tr =>
            simp only [runConversation]
            cases hn : nr.classification <;>
              cases ht : tr.classification <;>
              simp_all [finalClassification, applyNonceDetails, recordTarget]

theorem runConversation_reason (r : VerifyResult)
    (hre : r.reason = none)
    (hgr : r.details.greylisted = false)
    (conn : Except String Unit) (hel mf rn rt : Except String SmtpResponse) :
    ((runConversation r conn hel mf rn rt).reason = none ↔
      ((∃ u, conn = .ok u) ∧ (∃ hres, hel = .ok hres) ∧
       (∃ mfres, mf = .ok mfres) ∧
       (∃ nr, rn = .ok nr ∧ nr.classification ≠ .TRANSIENT_FAIL) ∧
       (∃ tr, rt = .ok tr ∧
         (tr.classification = .INTERMEDIATE ∨
          tr.classification = .PROTOCOL_ERROR)))) ∧
    (∀ m, stepErrorOf conn hel mf rn rt = some m →
      (runConversation r conn hel mf rn rt).reason = some ("SMTP Error: " ++ m)) := by
  cases conn with
  | error m => simp [runConversation, stepErrorOf]
  | ok u =>
    cases hel with
    | error m => simp [runConversation, stepErrorOf]
    | ok hres =>
      cases mf with
      | error m => simp [runConversation, stepErrorOf]
      | ok mfres =>
        cases rn with
        | error m => simp [runConversation, stepErrorOf]
        | ok nr =>
          cases rt with
          | error m => simp [runConversation, stepErrorOf]
          | ok tr =>
            simp only [runConversation, stepErrorOf]
            cases hn : nr.classification <;>
              cases ht : tr.classification <;>
              simp_all [finalClassification, applyNonceDetails, recordTarget] <;>
              split_ifs <;> simp_all

/-- Claim C5 (counterexample): the input `"a@b@c"` contains two `'@'`
characters, yet `verifyEmail` proceeds past the syntax gate — with a
cooperative world it reaches the SMTP conversation and returns VALID,
having taken `"b"` (the segment between the two `'@'`s) as the
domain.  This contradicts the claim that only strings with exactly one
`'@'` pass the gate. -/
theorem verifyEmail_gate_accepts_double_at :
    ("a@b@c".data.count '@' = 2) ∧
    (verifyEmail "a@b@c" wValidWorld).status = .VALID ∧
    (verifyEmail "a@b@c" wValidWorld).reason =
      some "Recipient accepted (and domain not Catch-All)" ∧
    (verifyEmail "a@b@c" wValidWorld).domain = some "b" := by
  refine ⟨by decide, by decide, by decide, by decide⟩

/-- Claim C5 (amended): `verifyEmail` returns immediately with INVALID
and reason `"Invalid email syntax"` — independently of any DNS or SMTP
outcome — exactly when the input is empty, lacks `'@'`, or has an
empty first or second `'@'`-separated segment (`GatePass` fails); on
every other input it proceeds past the gate and never reports that
reason. -/
theorem verifyEmail_syntax_gate_characterization (email : String) (w w2 : SmtpWorld) :
    ((verifyEmail email w).reason = some "Invalid email syntax" ↔ ¬ GatePass email) ∧
    (¬ GatePass email →
      verifyEmail email w =
        { initResult email with
          status := .INVALID
          reason := some "Invalid email syntax" } ∧
      verifyEmail email w = verifyEmail email w2) := by
  obtain ⟨⟨mxs, mxr⟩, conn, hel, mf, rn, rt⟩ := w
  obtain ⟨⟨mxs2, mxr2⟩, conn2, hel2, mf2, rn2, rt2⟩ := w2
  by_cases h1 : email = "" ∨ '@' ∉ email.data
  · refine ⟨?_, fun _ => ⟨?_, ?_⟩⟩
    · simp [verifyEmail, GatePass, h1]
    · simp [verifyEmail, initResult, h1]
    · simp [verifyEmail, h1]
  · by_cases h2 : (splitOnChar '@' email.data)[0]?.getD [] = [] ∨
        (splitOnChar '@' email.data)[1]?.getD [] = []
    · refine ⟨?_, fun _ => ⟨?_, ?_⟩⟩
      · simp [verifyEmail, GatePass, h1, h2]
      · simp [verifyEmail, initResult, h1, h2]
      · simp [verifyEmail, h1, h2]
    · have hg : GatePass email := ⟨h1, h2⟩
      have hne : (verifyEmail email
          (SmtpWorld.mk (MXLookup.mk mxs mxr) conn hel mf rn rt)).reason ≠
          some "Invalid email syntax" := by
        by_cases h3 : mxs = false ∨ mxr = []
        · have heq : (verifyEmail email
              (SmtpWorld.mk (MXLookup.mk mxs mxr) conn hel mf rn rt)).reason =
              some "No MX records found" := by
            simp [verifyEmail, h1, h2, h3]
          rw [heq]
          decide
        · have heq : verifyEmail email
              (SmtpWorld.mk (MXLookup.mk mxs mxr) conn hel mf rn rt) =
              runConversation
                { initResult email with
                  domain := some (String.mk ((splitOnChar '@' email.data).getD 1 []))
                  mx := some ((mxr.getD 0 (MXRecord.mk "" none)).exchange) }
                conn hel mf rn rt := by
            simp [verifyEmail, h1, h2, h3]
          rw [heq]
          exact runConversation_reason_ne_syntax _ rfl conn hel mf rn rt
      exact ⟨⟨fun hx => absurd hx hne, fun hng => absurd hg hng⟩,
        fun hng => absurd hg hng⟩

/-- Witness for the amended C5 at the concrete input `"a@"`. -/
theorem verifyEmail_syntax_gate_witness :
    verifyEmail "a@" wValidWorld =
      { initResult "a@" with
        status := .INVALID
        reason := some "Invalid email syntax" } :=
  ((verifyEmail_syntax_gate_characterization "a@" wValidWorld wValidWorld).2
    (by decide)).1

/-- Claim C6: a CATCH_ALL status always carries `catchAllActive =
true`, a VALID status always carries `catchAllActive = false`, and the
status is CATCH_ALL exactly when the pipeline ran to completion with
both the catch-all probe and the target `RCPT TO` classified
SUCCESS. -/
theorem verifyEmail_catchAll_characterization (email : String) (w : SmtpWorld) :
    ((verifyEmail email w).status = .CATCH_ALL →
      (verifyEmail email w).details.catchAllActive = true) ∧
    ((verifyEmail email w).status = .VALID →
      (verifyEmail email w).details.catchAllActive = false) ∧
    ((verifyEmail email w).status = .CATCH_ALL ↔
      (GatePass email ∧ w.mx.success = true ∧ w.mx.records ≠ [] ∧
       (∃ u, w.connect = .ok u) ∧ (∃ hres, w.hello = .ok hres) ∧
       (∃ mfres, w.mailFrom = .ok mfres) ∧
       (∃ nr, w.rcptNonce = .ok nr ∧ nr.classification = .SUCCESS) ∧
       (∃ tr, w.rcptTarget = .ok tr ∧ tr.classification = .SUCCESS))) := by
  obtain ⟨⟨mxs, mxr⟩, conn, hel, mf, rn, rt⟩ := w
  dsimp only
  by_cases h1 : email = "" ∨ '@' ∉ email.data
  · refine ⟨by simp [verifyEmail, h1], by simp [verifyEmail, h1], ?_⟩
    constructor
    · intro hc
      have : Status.INVALID = Status.CATCH_ALL := by
        have heq : (verifyEmail email
            (SmtpWorld.mk (MXLookup.mk mxs mxr) conn hel mf rn rt)).status =
            Status.INVALID := by simp [verifyEmail, h1]
        rw [← heq, hc]
      exact absurd this (by decide)
    · rintro ⟨hg, _⟩
      exact absurd h1 hg.1
  · by_cases h2 : (splitOnChar '@' email.data)[0]?.getD [] = [] ∨
        (splitOnChar '@' email.data)[1]?.getD [] = []
    · refine ⟨by simp [verifyEmail, h1, h2], by simp [verifyEmail, h1, h2], ?_⟩
      constructor
      · intro hc
        have : Status.INVALID = Status.CATCH_ALL := by
          have heq : (verifyEmail email
              (SmtpWorld.mk (MXLookup.mk mxs mxr) conn hel mf rn rt)).status =
              Status.INVALID := by simp [verifyEmail, h1, h2]
          rw [← heq, hc]
        exact absurd this (by decide)
      · rintro ⟨hg, _⟩
        exact absurd h2 hg.2
    · have hg : GatePass email := ⟨h1, h2⟩
      by_cases h3 : mxs = false ∨ mxr = []
      · refine ⟨by simp [verifyEmail, h1, h2, h3],
          by simp [verifyEmail, h1, h2, h3], ?_⟩
        constructor
        · intro hc
          have : Status.INVALID = Status.CATCH_ALL := by
            have heq : (verifyEmail email
                (SmtpWorld.mk (MXLookup.mk mxs mxr) conn hel mf rn rt)).status =
                Status.INVALID := by simp [verifyEmail, h1, h2, h3]
            rw [← heq, hc]
          exact absurd this (by decide)
        · rintro ⟨_, hmxs, hmxr, _⟩
          rcases h3 with hx | hx
          · rw [hx] at hmxs; exact absurd hmxs (by decide)
          · exact absurd hx hmxr
      · have hmxs : mxs = true := by
          cases mxs
          · exact absurd (Or.inl rfl) h3
          · rfl
        have hmxr : mxr ≠ [] := fun hx => h3 (Or.inr hx)
        have heq : verifyEmail email
            (SmtpWorld.mk (MXLookup.mk mxs mxr) conn hel mf rn rt) =
            runConversation
              { initResult email with
                domain := some (String.mk ((splitOnChar '@' email.data).getD 1 []))
                mx := some ((mxr.getD 0 (MXRecord.mk "" none)).exchange) }
              conn hel mf rn rt := by
          simp [verifyEmail, h1, h2, h3]
        rw [heq]
        obtain ⟨k1, k2, k3⟩ := runConversation_catchAll
          { initResult email with
            domain := some (String.mk ((splitOnChar '@' email.data).getD 1 []))
            mx := some ((mxr.getD 0 (MXRecord.mk "" none)).exchange) }
          rfl rfl rfl conn hel mf rn rt
        refine ⟨k1, k2, ?_⟩
        rw [k3]
        constructor
        · intro hc
          exact ⟨hg, hmxs, hmxr, hc⟩
        · rintro ⟨_, _, _, hc1, hc2, hc3, hc4, hc5⟩
          exact ⟨hc1, hc2, hc3, hc4, hc5⟩

/-- Witness for C6 at the catch-all scenario. -/
theorem verifyEmail_catchAll_witness :
    (verifyEmail "a@b.com" wCatchAllWorld).details.catchAllActive = true :=
  (verifyEmail_catchAll_characterization "a@b.com" wCatchAllWorld).1 (by decide)

/-- Claim C7 (counterexample): with every step succeeding and the
target `RCPT TO` answered `354` (classification INTERMEDIATE), the
result's `reason` is `none` — not populated — even though the SMTP
code was recorded.  This contradicts the claim that `reason` is always
populated. -/
theorem verifyEmail_intermediate_reason_null :
    (verifyEmail "a@b.com" wIntermediateWorld).reason = none ∧
    (verifyEmail "a@b.com" wIntermediateWorld).status = .UNKNOWN ∧
    (verifyEmail "a@b.com" wIntermediateWorld).details.smtpCode = some 354 := by
  refine ⟨by decide, by decide, by decide⟩

/-- Claim C7 (amended): the status always lies in the five-valued
enumeration by construction, and `reason` is populated on every path
EXCEPT exactly when the conversation completes, the probe is not
transient, and the target classifies INTERMEDIATE or PROTOCOL_ERROR
(where it stays `none`); when an SMTP step throws with message `m`
after a successful gate and MX lookup, the reason is
`"SMTP Error: " ++ m`. -/
theorem verifyEmail_reason_characterization (email : String) (w : SmtpWorld) :
    ((verifyEmail email w).reason = none ↔
      (GatePass email ∧ w.mx.success = true ∧ w.mx.records ≠ [] ∧
       (∃ u, w.connect = .ok u) ∧ (∃ hres, w.hello = .ok hres) ∧
       (∃ mfres, w.mailFrom = .ok mfres) ∧
       (∃ nr, w.rcptNonce = .ok nr ∧ nr.classification ≠ .TRANSIENT_FAIL) ∧
       (∃ tr, w.rcptTarget = .ok tr ∧
         (tr.classification = .INTERMEDIATE ∨
          tr.classification = .PROTOCOL_ERROR)))) ∧
    (∀ m, GatePass email → w.mx.success = true → w.mx.records ≠ [] →
      smtpStepError w = some m →
      (verifyEmail email w).reason = some ("SMTP Error: " ++ m)) := by
  obtain ⟨⟨mxs, mxr⟩, conn, hel, mf, rn, rt⟩ := w
  dsimp only
  by_cases h1 : email = "" ∨ '@' ∉ email.data
  · refine ⟨?_, ?_⟩
    · constructor
      · intro hc
        have heq : (verifyEmail email
            (SmtpWorld.mk (MXLookup.mk mxs mxr) conn hel mf rn rt)).reason =
            some "Invalid email syntax" := by simp [verifyEmail, h1]
        rw [heq] at hc
        exact absurd hc (by decide)
      · rintro ⟨hg, _⟩
        exact absurd h1 hg.1
    · intro m hg
      exact absurd h1 hg.1
  · by_cases h2 : (splitOnChar '@' email.data)[0]?.getD [] = [] ∨
        (splitOnChar '@' email.data)[1]?.getD [] = []
    · refine ⟨?_, ?_⟩
      · constructor
        · intro hc
          have heq : (verifyEmail email
              (SmtpWorld.mk (MXLookup.mk mxs mxr) conn hel mf rn rt)).reason =
              some "Invalid email syntax" := by simp [verifyEmail, h1, h2]
          rw [heq] at hc
          exact absurd hc (by decide)
        · rintro ⟨hg, _⟩
          exact absurd h2 hg.2
      · intro m hg
        exact absurd h2 hg.2
    · have hg : GatePass email := ⟨h1, h2⟩
      by_cases h3 : mxs = false ∨ mxr = []
      · refine ⟨?_, ?_⟩
        · constructor
          · intro hc
            have heq : (verifyEmail email
                (SmtpWorld.mk (MXLookup.mk mxs mxr) conn hel mf rn rt)).reason =
                some "No MX records found" := by simp [verifyEmail, h1, h2, h3]
            rw [heq] at hc
            exact absurd hc (by decide)
          · rintro ⟨_, hmxs, hmxr, _⟩
            rcases h3 with hx | hx
            · rw [hx] at hmxs; exact absurd hmxs (by decide)
            · exact absurd hx hmxr
        · intro m _ hmxs hmxr
          rcases h3 with hx | hx
          · rw [hx] at hmxs; exact absurd hmxs (by decide)
          · exact absurd hx hmxr
      · have hmxs : mxs = true := by
          cases mxs
          · exact absurd (Or.inl rfl) h3
          · rfl
        have hmxr : mxr ≠ [] := fun hx => h3 (Or.inr hx)
        have heq : verifyEmail email
            (SmtpWorld.mk (MXLookup.mk mxs mxr) conn hel mf rn rt) =
            runConversation
              { initResult email with
                domain := some (String.mk ((splitOnChar '@' email.data).getD 1 []))
                mx := some ((mxr.getD 0 (MXRecord.mk "" none)).exchange) }
              conn hel mf rn rt := by
          simp [verifyEmail, h1, h2, h3]
        rw [heq]
        obtain ⟨k1, k2⟩ := runConversation_reason
          { initResult email with
            domain := some (String.mk ((splitOnChar '@' email.data).getD 1 []))
            mx := some ((mxr.getD 0 (MXRecord.mk "" none)).exchange) }
          rfl rfl conn hel mf rn rt
        refine ⟨?_, ?_⟩
        · rw [k1]
          constructor
          · intro hc
            exact ⟨hg, hmxs, hmxr, hc⟩
          · rintro ⟨_, _, _, hc1, hc2, hc3, hc4, hc5⟩
            exact ⟨hc1, hc2, hc3, hc4, hc5⟩
        · intro m _ _ _ hstep
          exact k2 m hstep

/-- Witness for the amended C7: a connect failure surfaces its message
in the reason. -/
theorem verifyEmail_reason_witness :
    (verifyEmail "a@b.com" wConnFailWorld).reason =
      some ("SMTP Error: " ++ "boom") :=
  (verifyEmail_reason_characterization "a@b.com" wConnFailWorld).2 "boom"
    (by decide) (by decide) (by decide) (by decide)

/-- Claim C8: `has_full_inbox` holds exactly for SMTP codes 452, 552,
554 whose message (`""` when absent) matches the full-inbox pattern
case-insensitively, it forces `is_deliverable = false`, and the
concrete scenario — target reply `"552 5.2.2 Mailbox full\r\n"` run
through the real parser and verifier — maps to
`can_connect_smtp = true, is_deliverable = false,
has_full_inbox = true`. -/
theorem formatOutput_full_inbox (v : VerifyResult) :
    ((formatOutput v).has_full_inbox = true ↔
      ((v.details.smtpCode = some 452 ∨ v.details.smtpCode = some 552 ∨
        v.details.smtpCode = some 554) ∧
       testPattern FULL_INBOX (v.details.smtpMessage.getD "") = true)) ∧
    ((formatOutput v).has_full_inbox = true →
      (formatOutput v).is_deliverable = false) ∧
    formatOutput (verifyEmail "a@b.com" wFullInboxWorld) =
      PublicResult.mk true false false true false ∧
    (verifyEmail "a@b.com" wFullInboxWorld).details.smtpMessage =
      some "Mailbox full" := by
  refine ⟨?_, ?_, by decide, by decide⟩
  · simp only [formatOutput]
    split_ifs <;> simp_all
  · intro hfi
    simp only [formatOutput] at hfi ⊢
    split_ifs at hfi ⊢ <;> simp_all

/-- Witness for C8: at the full-mailbox verdict the forced
`is_deliverable = false` holds. -/
theorem formatOutput_full_inbox_witness :
    (formatOutput (verifyEmail "a@b.com" wFullInboxWorld)).is_deliverable = false :=
  (formatOutput_full_inbox (verifyEmail "a@b.com" wFullInboxWorld)).2.1 (by decide)

/-- Witness for C2 at the concrete buffer `"250 OK\r\n"`. -/
theorem parseSmtpResponse_some_iff_witness :
    ∃ l, (nonEmptyLines "250 OK\r\n").getLast? = some l ∧
      completeFinalLine l = true :=
  (parseSmtpResponse_some_iff_completeFinalLine "250 OK\r\n").mp (by decide)

end EmailVerifier
